import Mathlib

/-!
Verification of the feedback submission and sentiment-classification
pipeline.

Shallow embedding of the client-side feedback pipeline in
`src/SubmitFeedback.tsx`: the `analyzeSentiment` routine (remote-first
classification with a keyword-based local fallback) and the `handleSubmit`
orchestration (validate, classify, persist, report).

Strings are modelled by Lean `String` (a sequence of characters); the
JavaScript operations `toLowerCase`, `includes` and the emptiness test of
`trim` are modelled character-wise.  External collaborators are modelled by
their observable outcomes: the remote classifier call either fails (throws,
errors or times out) or succeeds with an optional `sentiment` payload, and
the record-store insert either succeeds or reports an error value.
`handleSubmit` returns, besides its result, the number of remote-classifier
calls made and the list of records handed to the record store, so that
call counts and record contents can be stated.
-/

/-- Character-wise model of JavaScript `String.prototype.toLowerCase`
(ASCII letters; the keywords of the fallback classifier are ASCII). -/
def lowerStr (s : String) : String :=
  ⟨s.data.map Char.toLower⟩

/-- Substring occurrence: `charsContain needle hay` holds when `needle`
occurs as a contiguous substring of `hay` (the character-list core of
JavaScript `String.prototype.includes`). -/
def charsContain (needle : List Char) : List Char → Bool
  | [] => needle.isEmpty
  | c :: t => needle.isPrefixOf (c :: t) || charsContain needle t

/-- Model of the JavaScript call `hay.includes(needle)`. -/
def strIncludes (hay needle : String) : Bool :=
  charsContain needle.data hay.data

/-- JavaScript whitespace characters relevant to `String.prototype.trim`
(the ones that can occur in this model). -/
def isWs (c : Char) : Bool :=
  c == ' ' || c == '\t' || c == '\n' || c == '\r'

/-- Emptiness after trimming: `trimmedEmpty s` holds when the string is
empty after trimming whitespace, i.e. the JavaScript test `!s.trim()`
succeeds (every character is whitespace). -/
def trimmedEmpty (s : String) : Bool :=
  s.data.all isWs

/-- Fallback keyword classifier, `src/SubmitFeedback.tsx` lines 84-91:
lower-case the text, return `"Positive"` on any positive keyword, else
`"Negative"` on any negative keyword, else `"Neutral"`. -/
def fallbackClassify (text : String) : String :=
  let lowerText := lowerStr text
  if strIncludes lowerText "excellent" || strIncludes lowerText "great" ||
      strIncludes lowerText "good" || strIncludes lowerText "helpful" ||
      strIncludes lowerText "amazing" then
    "Positive"
  else if strIncludes lowerText "bad" || strIncludes lowerText "poor" ||
      strIncludes lowerText "terrible" || strIncludes lowerText "worst" ||
      strIncludes lowerText "disappointed" then
    "Negative"
  else
    "Neutral"

/-- The positive keyword set of the fallback classifier. -/
def positiveKeywords : List String :=
  ["excellent", "great", "good", "helpful", "amazing"]

/-- The negative keyword set of the fallback classifier. -/
def negativeKeywords : List String :=
  ["bad", "poor", "terrible", "worst", "disappointed"]

/-- Keyword-set containment: `containsAnyKeyword s kws` holds when `s`
contains some keyword of `kws` (the spec's "text contains any of a
keyword set"). -/
def containsAnyKeyword (s : String) (kws : List String) : Bool :=
  kws.any (fun kw => strIncludes s kw)

/-- Observable outcome of the remote classifier call
(`supabase.functions.invoke('analyze-sentiment', ...)`): either the call
fails (network error, `error` non-null, or a throw/timeout), or it succeeds
with a payload whose `sentiment` field may be absent. -/
inductive RemoteOutcome where
  | failure
  | success (sentiment : Option String)
deriving DecidableEq

/-- Classification routine `analyzeSentiment`,
`src/SubmitFeedback.tsx` lines 73-95: on a
successful remote call return `data.sentiment || 'Neutral'` (the payload's
label verbatim when non-empty, `"Neutral"` when absent or empty); on any
failure fall back to the keyword classifier.  The source's `catch` absorbs
every failure, so the function is total. -/
def analyzeSentiment (remote : RemoteOutcome) (text : String) : String :=
  match remote with
  | RemoteOutcome.success sentiment =>
    match sentiment with
    | some s => if s = "" then "Neutral" else s
    | none => "Neutral"
  | RemoteOutcome.failure => fallbackClassify text

/-- The closed label enumeration of the spec: `{Positive, Neutral, Negative}`. -/
def isRecognizedLabel (s : String) : Bool :=
  s == "Positive" || s == "Neutral" || s == "Negative"

/-- The author profile resolved before submission
(`StudentInfo` in `src/SubmitFeedback.tsx` lines 15-19). -/
structure StudentInfo where
  id : String
  branch : String
  semester : Nat
deriving DecidableEq

/-- The flat record handed to the record store,
`src/SubmitFeedback.tsx` lines 124-132. -/
structure FeedbackRecord where
  student_id : String
  subject : String
  category : String
  feedback_text : String
  sentiment : String
  branch : String
  semester : Nat
deriving DecidableEq

/-- Error taxonomy of `submit`. -/
inductive SubmitError where
  | missingIdentity
  | missingFields
  | persistenceFailed
deriving DecidableEq

/-- Result of a `submit` invocation: `ok label` on success. -/
inductive SubmitResult where
  | ok (sentiment : String)
  | err (e : SubmitError)
deriving DecidableEq

/-- Observable trace of one `submit` invocation: the result reported,
the number of remote-classifier calls made, and the records handed to the
record store, in order. -/
structure SubmitTrace where
  result : SubmitResult
  remoteCalls : Nat
  insertAttempts : List FeedbackRecord
deriving DecidableEq

/-- Submission pipeline `handleSubmit`,
`src/SubmitFeedback.tsx` lines 97-152: fail with
`missingIdentity` when the author profile is unresolved; fail with
`missingFields` when subject or category is empty or the body is empty
after trimming; otherwise classify the body (one remote call, fallback on
failure), build the record with the author's denormalized branch and
semester, and hand it to the record store.  `insertError = none` models a
successful insert; `some e` models the store reporting error `e`, which the
source re-throws into its catch-all and reports as a generic failure. -/
def handleSubmit (studentInfo : Option StudentInfo)
    (subject category feedbackText : String)
    (remote : RemoteOutcome) (insertError : Option String) : SubmitTrace :=
  match studentInfo with
  | none =>
    { result := SubmitResult.err SubmitError.missingIdentity,
      remoteCalls := 0, insertAttempts := [] }
  | some info =>
    if subject = "" ∨ category = "" ∨ trimmedEmpty feedbackText = true then
      { result := SubmitResult.err SubmitError.missingFields,
        remoteCalls := 0, insertAttempts := [] }
    else
      let sentiment := analyzeSentiment remote feedbackText
      let record : FeedbackRecord :=
        { student_id := info.id, subject := subject, category := category,
          feedback_text := feedbackText, sentiment := sentiment,
          branch := info.branch, semester := info.semester }
      match insertError with
      | none =>
        { result := SubmitResult.ok sentiment,
          remoteCalls := 1, insertAttempts := [record] }
      | some _ =>
        { result := SubmitResult.err SubmitError.persistenceFailed,
          remoteCalls := 1, insertAttempts := [record] }

/-- Unfolding of keyword-set containment for the positive set. -/
lemma containsAny_positive (s : String) :
    containsAnyKeyword s positiveKeywords =
      (strIncludes s "excellent" || strIncludes s "great" || strIncludes s "good" ||
        strIncludes s "helpful" || strIncludes s "amazing") := by
  simp [containsAnyKeyword, positiveKeywords, Bool.or_assoc]

/-- Unfolding of keyword-set containment for the negative set. -/
lemma containsAny_negative (s : String) :
    containsAnyKeyword s negativeKeywords =
      (strIncludes s "bad" || strIncludes s "poor" || strIncludes s "terrible" ||
        strIncludes s "worst" || strIncludes s "disappointed") := by
  simp [containsAnyKeyword, negativeKeywords, Bool.or_assoc]

/-- The fallback classifier only ever produces the three closed labels. -/
lemma fallbackClassify_cases (text : String) :
    fallbackClassify text = "Positive" ∨ fallbackClassify text = "Negative" ∨
      fallbackClassify text = "Neutral" := by
  simp only [fallbackClassify]
  split
  · exact Or.inl rfl
  · split
    · exact Or.inr (Or.inl rfl)
    · exact Or.inr (Or.inr rfl)

/-- The fallback classifier never returns the empty string. -/
lemma fallbackClassify_ne_empty (text : String) : fallbackClassify text ≠ "" := by
  rcases fallbackClassify_cases text with h | h | h <;> rw [h] <;> decide

/-- The classification routine never returns the empty string. -/
lemma analyzeSentiment_ne_empty (remote : RemoteOutcome) (text : String) :
    analyzeSentiment remote text ≠ "" := by
  cases remote with
  | failure => exact fallbackClassify_ne_empty text
  | success sentiment =>
    cases sentiment with
    | none =>
      show (("Neutral" : String) ≠ "")
      decide
    | some s =>
      by_cases hs : s = ""
      · subst hs
        show (("Neutral" : String) ≠ "")
        decide
      · simp [analyzeSentiment, hs]

/-- C1: the fallback keyword classifier, applied to the lower-cased input
text, returns `"Positive"` if the text contains any positive keyword;
otherwise `"Negative"` if it contains any negative keyword; otherwise
`"Neutral"`.  In particular a text containing both a positive and a
negative keyword yields `"Positive"`: the positive set is evaluated
strictly first. -/
theorem fallback_keyword_first_match (text : String) :
    (containsAnyKeyword (lowerStr text) positiveKeywords = true →
      fallbackClassify text = "Positive") ∧
    (containsAnyKeyword (lowerStr text) positiveKeywords = false →
      containsAnyKeyword (lowerStr text) negativeKeywords = true →
      fallbackClassify text = "Negative") ∧
    (containsAnyKeyword (lowerStr text) positiveKeywords = false →
      containsAnyKeyword (lowerStr text) negativeKeywords = false →
      fallbackClassify text = "Neutral") ∧
    (containsAnyKeyword (lowerStr text) positiveKeywords = true →
      containsAnyKeyword (lowerStr text) negativeKeywords = true →
      fallbackClassify text = "Positive") := by
  rw [containsAny_positive, containsAny_negative]
  refine ⟨fun h1 => ?_, fun h1 h2 => ?_, fun h1 h2 => ?_, fun h1 _ => ?_⟩
  · simp only [fallbackClassify]
    simp [h1]
  · simp only [fallbackClassify]
    simp [h1, h2]
  · simp only [fallbackClassify]
    simp [h1, h2]
  · simp only [fallbackClassify]
    simp [h1]

/-- C1 witness: a text containing both a positive keyword (`great`) and a
negative keyword (`terrible`) is classified `"Positive"`. -/
theorem fallback_keyword_first_match_witness :
    fallbackClassify "great but terrible" = "Positive" :=
  (fallback_keyword_first_match "great but terrible").2.2.2 (by decide) (by decide)

/-- C2 counterexample: a successful remote response carrying the
unrecognized non-empty label `"POSITIVE"` is returned verbatim by
`analyzeSentiment`, so the result is not one of the three closed labels.
The claim that `classify` always returns one of
`{Positive, Neutral, Negative}` is therefore false as stated. -/
theorem classify_unrecognized_passthrough_cx :
    isRecognizedLabel
      (analyzeSentiment (RemoteOutcome.success (some "POSITIVE"))
        "the lectures were fine") = false := by
  decide

/-- C2 amended: `analyzeSentiment` is total (the embedding is a total
function, mirroring the source's catch-all) and never returns an empty
label; its result is one of the three closed labels whenever the remote
call fails or returns an absent label, while a successful remote call's
non-empty label is returned verbatim — even when it lies outside the three
closed labels. -/
theorem classify_total_nonempty (remote : RemoteOutcome) (text : String) :
    analyzeSentiment remote text ≠ "" ∧
    (remote = RemoteOutcome.failure →
      isRecognizedLabel (analyzeSentiment remote text) = true) ∧
    (remote = RemoteOutcome.success none →
      analyzeSentiment remote text = "Neutral") ∧
    (∀ s : String, remote = RemoteOutcome.success (some s) → s ≠ "" →
      analyzeSentiment remote text = s) := by
  refine ⟨analyzeSentiment_ne_empty remote text, fun h => ?_, fun h => ?_,
    fun s h hs => ?_⟩ <;> subst h
  · rcases fallbackClassify_cases text with h | h | h <;>
      simp only [analyzeSentiment] <;> rw [h] <;> decide
  · rfl
  · simp [analyzeSentiment, hs]

/-- C2 amended witness: on a failed remote call for a concrete text the
result is one of the three closed labels. -/
theorem classify_total_nonempty_witness :
    isRecognizedLabel (analyzeSentiment RemoteOutcome.failure "meh") = true :=
  (classify_total_nonempty RemoteOutcome.failure "meh").2.1 rfl

/-- C3 counterexample: a successful remote response with the unrecognized
non-empty label `"Bananas"` does not yield `"Neutral"` — the source's
`data.sentiment || 'Neutral'` passes any non-empty label through verbatim,
so only empty or absent labels are coerced to `"Neutral"`. -/
theorem classify_unrecognized_not_neutral_cx :
    analyzeSentiment (RemoteOutcome.success (some "Bananas")) "nice course" ≠
      "Neutral" := by
  decide

/-- C3 amended: if the remote call succeeds but the sentiment label is
absent or empty, `analyzeSentiment` returns `"Neutral"`; a non-empty label
(recognized or not) is returned verbatim. -/
theorem classify_empty_label_neutral (text : String) :
    analyzeSentiment (RemoteOutcome.success none) text = "Neutral" ∧
    analyzeSentiment (RemoteOutcome.success (some "")) text = "Neutral" ∧
    (∀ s : String, s ≠ "" →
      analyzeSentiment (RemoteOutcome.success (some s)) text = s) := by
  refine ⟨rfl, rfl, fun s hs => ?_⟩
  simp [analyzeSentiment, hs]

/-- C3 amended witness: the concrete non-empty label `"Bananas"` is
returned verbatim. -/
theorem classify_empty_label_neutral_witness :
    analyzeSentiment (RemoteOutcome.success (some "Bananas")) "nice course" =
      "Bananas" :=
  (classify_empty_label_neutral "nice course").2.2 "Bananas" (by decide)

/-- Validation passes when subject and category are non-empty and the body
is not whitespace-only. -/
lemma valid_input_cond (subject category text : String)
    (hsub : subject ≠ "") (hcat : category ≠ "")
    (hbody : trimmedEmpty text = false) :
    ¬ (subject = "" ∨ category = "" ∨ trimmedEmpty text = true) := by
  push_neg
  exact ⟨hsub, hcat, by simp [hbody]⟩

/-- C4: when the remote classifier call fails, `analyzeSentiment` returns
exactly the fallback keyword result, the failure is not propagated (the
embedding is a total function, mirroring the source's catch-all around the
remote call), and the submit pipeline still completes normally with a
defined outcome: success with the fallback label when the insert succeeds,
`persistenceFailed` when it does not — never an escaped exception. -/
theorem remote_failure_falls_back (info : StudentInfo)
    (subject category text : String) (insertError : Option String)
    (hsub : subject ≠ "") (hcat : category ≠ "")
    (hbody : trimmedEmpty text = false) :
    analyzeSentiment RemoteOutcome.failure text = fallbackClassify text ∧
    (handleSubmit (some info) subject category text RemoteOutcome.failure
        insertError).result =
      (match insertError with
       | none => SubmitResult.ok (fallbackClassify text)
       | some _ => SubmitResult.err SubmitError.persistenceFailed) := by
  have hcond := valid_input_cond subject category text hsub hcat hbody
  refine ⟨rfl, ?_⟩
  cases insertError <;> simp [handleSubmit, hcond, analyzeSentiment]

/-- C4 witness: concrete valid submission with a failed remote call and a
failed insert completes with `persistenceFailed`. -/
theorem remote_failure_falls_back_witness :
    analyzeSentiment RemoteOutcome.failure "good labs" =
      fallbackClassify "good labs" ∧
    (handleSubmit (some ⟨"s1", "CSE", 5⟩) "Physics" "Lab Sessions" "good labs"
        RemoteOutcome.failure (some "network down")).result =
      SubmitResult.err SubmitError.persistenceFailed :=
  remote_failure_falls_back ⟨"s1", "CSE", 5⟩ "Physics" "Lab Sessions"
    "good labs" (some "network down") (by decide) (by decide) (by decide)

/-- C5: validation is fail-fast with zero side effects.  An unresolved
author yields `missingIdentity`; a resolved author with an empty subject or
category, or a whitespace-only body, yields `missingFields`; in every such
case the trace records zero remote-classifier calls and zero records
handed to the record store. -/
theorem validation_fail_fast :
    (∀ (subject category text : String) (remote : RemoteOutcome)
        (insertError : Option String),
      handleSubmit none subject category text remote insertError =
        ⟨SubmitResult.err SubmitError.missingIdentity, 0, []⟩) ∧
    (∀ (info : StudentInfo) (subject category text : String)
        (remote : RemoteOutcome) (insertError : Option String),
      subject = "" ∨ category = "" ∨ trimmedEmpty text = true →
      handleSubmit (some info) subject category text remote insertError =
        ⟨SubmitResult.err SubmitError.missingFields, 0, []⟩) := by
  constructor
  · intro subject category text remote insertError
    rfl
  · intro info subject category text remote insertError h
    simp [handleSubmit, h]

/-- C5 witness: a whitespace-only body with resolved identity fails with
`missingFields`, with zero remote calls and zero insert attempts. -/
theorem validation_fail_fast_witness :
    handleSubmit (some ⟨"s1", "CSE", 5⟩) "Mathematics" "General" "   "
        RemoteOutcome.failure none =
      ⟨SubmitResult.err SubmitError.missingFields, 0, []⟩ :=
  validation_fail_fast.2 ⟨"s1", "CSE", 5⟩ "Mathematics" "General" "   "
    RemoteOutcome.failure none (Or.inr (Or.inr (by decide)))

/-- C6: on a valid input with a successful insert, submit returns
`ok label` where `label` is exactly the label `analyzeSentiment` produced
for that body, and the single record handed to the record store carries
the submission fields, the author's denormalized branch and semester, and
that same label. -/
theorem submit_success_result_and_record (info : StudentInfo)
    (subject category text : String) (remote : RemoteOutcome)
    (hsub : subject ≠ "") (hcat : category ≠ "")
    (hbody : trimmedEmpty text = false) :
    (handleSubmit (some info) subject category text remote none).result =
      SubmitResult.ok (analyzeSentiment remote text) ∧
    (handleSubmit (some info) subject category text remote none).insertAttempts =
      [{ student_id := info.id, subject := subject, category := category,
         feedback_text := text, sentiment := analyzeSentiment remote text,
         branch := info.branch, semester := info.semester }] := by
  have hcond := valid_input_cond subject category text hsub hcat hbody
  constructor <;> simp [handleSubmit, hcond]

/-- C6 witness: concrete valid submission with successful insert returns
the classified label and hands over the fully populated record. -/
theorem submit_success_result_and_record_witness :
    (handleSubmit (some ⟨"s7", "ECE", 3⟩) "Algorithms" "Teaching Quality"
        "great course" RemoteOutcome.failure none).result =
      SubmitResult.ok (analyzeSentiment RemoteOutcome.failure "great course") ∧
    (handleSubmit (some ⟨"s7", "ECE", 3⟩) "Algorithms" "Teaching Quality"
        "great course" RemoteOutcome.failure none).insertAttempts =
      [{ student_id := "s7", subject := "Algorithms",
         category := "Teaching Quality", feedback_text := "great course",
         sentiment := analyzeSentiment RemoteOutcome.failure "great course",
         branch := "ECE", semester := 3 }] :=
  submit_success_result_and_record ⟨"s7", "ECE", 3⟩ "Algorithms"
    "Teaching Quality" "great course" RemoteOutcome.failure
    (by decide) (by decide) (by decide)

/-- C7: invariant of every submit invocation — at most one remote
classifier call and at most one insert attempt; every record handed to the
record store carries the sentiment label that classification produced for
the body (never an empty label); and whenever an insert is attempted, the
classification call has already happened (remote-call count is one). -/
theorem submit_order_invariant (studentInfo : Option StudentInfo)
    (subject category text : String) (remote : RemoteOutcome)
    (insertError : Option String) :
    (handleSubmit studentInfo subject category text remote
        insertError).remoteCalls ≤ 1 ∧
    (handleSubmit studentInfo subject category text remote
        insertError).insertAttempts.length ≤ 1 ∧
    (∀ r ∈ (handleSubmit studentInfo subject category text remote
        insertError).insertAttempts,
      r.sentiment = analyzeSentiment remote text ∧ r.sentiment ≠ "") ∧
    ((handleSubmit studentInfo subject category text remote
        insertError).insertAttempts ≠ [] →
      (handleSubmit studentInfo subject category text remote
        insertError).remoteCalls = 1) := by
  cases studentInfo with
  | none => simp [handleSubmit]
  | some info =>
    by_cases hcond : subject = "" ∨ category = "" ∨ trimmedEmpty text = true
    · simp [handleSubmit, hcond]
    · cases insertError <;>
        simp [handleSubmit, hcond, analyzeSentiment_ne_empty]

/-- C7 witness: on a concrete invocation that attempts an insert, the
remote-classifier call count is one. -/
theorem submit_order_invariant_witness :
    (handleSubmit (some ⟨"s2", "ME", 1⟩) "Physics" "General" "quite helpful"
        RemoteOutcome.failure none).remoteCalls = 1 :=
  (submit_order_invariant (some ⟨"s2", "ME", 1⟩) "Physics" "General"
      "quite helpful" RemoteOutcome.failure none).2.2.2 (by decide)

/-- C8: when the insert reports any error whatsoever, submit returns
`persistenceFailed` — the result does not depend on the error value `e`,
so no error subtype is inspected — and exactly one insert attempt is made
(no automatic retry inside the call).  A subsequent call with the same
input (third conjunct, quantified over fresh collaborator outcomes)
performs a fresh classify-and-insert attempt: one remote call and one
insert attempt again. -/
theorem persistence_failure_no_retry (info : StudentInfo)
    (subject category text : String) (remote : RemoteOutcome) (e : String)
    (hsub : subject ≠ "") (hcat : category ≠ "")
    (hbody : trimmedEmpty text = false) :
    (handleSubmit (some info) subject category text remote (some e)).result =
      SubmitResult.err SubmitError.persistenceFailed ∧
    (handleSubmit (some info) subject category text remote
        (some e)).insertAttempts.length = 1 ∧
    (∀ (remote2 : RemoteOutcome) (insertError2 : Option String),
      (handleSubmit (some info) subject category text remote2
          insertError2).remoteCalls = 1 ∧
      (handleSubmit (some info) subject category text remote2
          insertError2).insertAttempts.length = 1) := by
  have hcond := valid_input_cond subject category text hsub hcat hbody
  refine ⟨?_, ?_, fun remote2 insertError2 => ?_⟩
  · simp [handleSubmit, hcond]
  · simp [handleSubmit, hcond]
  · cases insertError2 <;> simp [handleSubmit, hcond]

/-- C8 witness: two different concrete store errors yield the same
`persistenceFailed` outcome, and the failed call made exactly one insert
attempt. -/
theorem persistence_failure_no_retry_witness :
    (handleSubmit (some ⟨"s3", "CSE", 7⟩) "Database Systems" "Examinations"
        "too hard" RemoteOutcome.failure (some "constraint violated")).result =
      SubmitResult.err SubmitError.persistenceFailed ∧
    (handleSubmit (some ⟨"s3", "CSE", 7⟩) "Database Systems" "Examinations"
        "too hard" RemoteOutcome.failure (some "auth expired")).result =
      SubmitResult.err SubmitError.persistenceFailed ∧
    (handleSubmit (some ⟨"s3", "CSE", 7⟩) "Database Systems" "Examinations"
        "too hard" RemoteOutcome.failure
        (some "constraint violated")).insertAttempts.length = 1 :=
  ⟨(persistence_failure_no_retry ⟨"s3", "CSE", 7⟩ "Database Systems"
      "Examinations" "too hard" RemoteOutcome.failure "constraint violated"
      (by decide) (by decide) (by decide)).1,
   (persistence_failure_no_retry ⟨"s3", "CSE", 7⟩ "Database Systems"
      "Examinations" "too hard" RemoteOutcome.failure "auth expired"
      (by decide) (by decide) (by decide)).1,
   (persistence_failure_no_retry ⟨"s3", "CSE", 7⟩ "Database Systems"
      "Examinations" "too hard" RemoteOutcome.failure "constraint violated"
      (by decide) (by decide) (by decide)).2.1⟩

/-- C9: the 1000-character guidance on the body is not enforced.
`handleSubmit` contains no test of the body's length: for every body that
is non-empty after trimming (and resolved identity, non-empty subject and
category), the result is never `missingFields` nor `missingIdentity`, and
exactly one insert attempt carrying the body verbatim is made — with no
hypothesis bounding the body's length, so arbitrarily long bodies are
classified and persisted like any other. -/
theorem no_length_enforcement (info : StudentInfo)
    (subject category text : String) (remote : RemoteOutcome)
    (insertError : Option String)
    (hsub : subject ≠ "") (hcat : category ≠ "")
    (hbody : trimmedEmpty text = false) :
    (handleSubmit (some info) subject category text remote insertError).result ≠
      SubmitResult.err SubmitError.missingFields ∧
    (handleSubmit (some info) subject category text remote insertError).result ≠
      SubmitResult.err SubmitError.missingIdentity ∧
    (handleSubmit (some info) subject category text remote
        insertError).insertAttempts.length = 1 := by
  have hcond := valid_input_cond subject category text hsub hcat hbody
  cases insertError <;> simp [handleSubmit, hcond]

/-- C9 witness: a body of 1001 characters — beyond the displayed
1000-character guidance — is accepted and produces an insert attempt. -/
theorem no_length_enforcement_witness :
    1000 < (String.mk (List.replicate 1001 'a')).length ∧
    (handleSubmit (some ⟨"s4", "CE", 2⟩) "Web Development" "Assignments"
        (String.mk (List.replicate 1001 'a')) RemoteOutcome.failure
        none).result ≠ SubmitResult.err SubmitError.missingFields :=
  ⟨by show 1000 < (List.replicate 1001 'a').length
      rw [List.length_replicate]
      norm_num,
   (no_length_enforcement ⟨"s4", "CE", 2⟩
      "Web Development" "Assignments" (String.mk (List.replicate 1001 'a'))
      RemoteOutcome.failure none (by decide) (by decide) (by decide)).1⟩

/-- C10: trimming is used only for validation, never for storage.  For
every accepted submission the body placed in the record handed to the
record store is the original untrimmed input string, while a
whitespace-only body is rejected as `missingFields` with no side
effects. -/
theorem body_stored_untrimmed (info : StudentInfo)
    (subject category text : String) (remote : RemoteOutcome)
    (insertError : Option String)
    (hsub : subject ≠ "") (hcat : category ≠ "") :
    (trimmedEmpty text = false →
      ∀ r ∈ (handleSubmit (some info) subject category text remote
          insertError).insertAttempts,
        r.feedback_text = text) ∧
    (trimmedEmpty text = true →
      handleSubmit (some info) subject category text remote insertError =
        ⟨SubmitResult.err SubmitError.missingFields, 0, []⟩) := by
  constructor
  · intro hbody r hr
    have hcond := valid_input_cond subject category text hsub hcat hbody
    cases insertError <;> simp [handleSubmit, hcond] at hr <;> simp [hr]
  · intro hbody
    simp [handleSubmit, Or.inr (Or.inr hbody)]

/-- C10 witness: a body with leading and trailing whitespace is persisted
verbatim in the record handed to the record store. -/
theorem body_stored_untrimmed_witness :
    ({ student_id := "s5", subject := "Physics", category := "General",
       feedback_text := "  solid course  ",
       sentiment := analyzeSentiment RemoteOutcome.failure "  solid course  ",
       branch := "EE", semester := 4 } : FeedbackRecord).feedback_text =
      "  solid course  " :=
  (body_stored_untrimmed ⟨"s5", "EE", 4⟩ "Physics" "General"
      "  solid course  " RemoteOutcome.failure none
      (by decide) (by decide)).1 (by decide) _ (by decide)

